import Mathlib

/-!
Shallow embedding of the visitor-tracker analytics server.

The repository contains two near-identical server variants:
* `src/unnamed/part_000` (modelled in namespace `Part000`): the richer variant
  with geo lookup, device-type detection and language extraction;
* `src/analytics-server.js` (modelled in namespace `Server`): the variant with
  the iOS tracking endpoint and the bearer-token gate on the analytics route.

JavaScript dynamic values that can be either strings or numbers are modelled by
`JsVal`; absent object properties are `Option`. JS truthiness of strings and
numbers is `JsVal.truthy`. External collaborators (the sqlite driver, the
geoip-lite dataset, JSON.parse, decodeURIComponent, parseInt, the server clock)
are parameters of the modelled functions: a Bool for storage success, and
abstract total functions for the library calls.
-/

/-- A JavaScript value appearing in a tracking payload: a string or a number. -/
inductive JsVal where
  | vstr (s : String)
  | vnum (n : Int)
deriving DecidableEq

/-- JS truthiness for a `JsVal`: the empty string and 0 are falsy. -/
def JsVal.truthy : JsVal → Bool
  | .vstr s => s != ""
  | .vnum n => n != 0

/-- Coercion of a `JsVal` to a string, as JS does inside a regex test. -/
def JsVal.toStr : JsVal → String
  | .vstr s => s
  | .vnum n => toString n

/-- JS truthiness for a possibly absent value. -/
def jsTruthyO : Option JsVal → Bool
  | none => false
  | some v => v.truthy

/-- JS `a || b` for a possibly absent `JsVal` against a default. -/
def jsOr (a : Option JsVal) (b : JsVal) : JsVal :=
  match a with
  | some v => if v.truthy then v else b
  | none => b

/-- JS `a || b` for a possibly absent string against a default string. -/
def jsOrS (a : Option String) (b : String) : String :=
  match a with
  | some s => if s != "" then s else b
  | none => b

/-- The characters of a string up to (excluding) the first comma: this is
JS `s.split(",")[0]`. -/
def takeUntilComma : List Char → List Char
  | [] => []
  | c :: cs => if c = ',' then [] else c :: takeUntilComma cs

/-- JS `s.split(",")[0]`. -/
def firstCommaEntry (s : String) : String :=
  String.mk (takeUntilComma s.toList)

/-- ASCII lower-casing of one character, for case-insensitive regex tests. -/
def lowerChar (c : Char) : Char :=
  if 65 ≤ c.toNat ∧ c.toNat ≤ 90 then Char.ofNat (c.toNat + 32) else c

/-- Whether `pat` occurs as a contiguous run inside `hay`. -/
def subseqAt (pat : List Char) : List Char → Bool
  | [] => pat.isEmpty
  | h :: hs => pat.isPrefixOf (h :: hs) || subseqAt pat hs

/-- Case-insensitive substring test: models `/pat/i.test(hay)` for a literal
regex alternative `pat`. -/
def containsCI (hay pat : String) : Bool :=
  subseqAt (pat.toList.map lowerChar) (hay.toList.map lowerChar)

/-- Whether any of the literal alternatives of a regex matches, models
`/t1|t2|...|tn/i.test(hay)`. -/
def containsAnyCI (hay : String) (toks : List String) : Bool :=
  toks.any (containsCI hay)

/-- The base64 value of one character (0 for padding or foreign characters,
as only well-formed base64 is decoded here). -/
def b64Val (c : Char) : Nat :=
  if 65 ≤ c.toNat ∧ c.toNat ≤ 90 then c.toNat - 65
  else if 97 ≤ c.toNat ∧ c.toNat ≤ 122 then c.toNat - 71
  else if 48 ≤ c.toNat ∧ c.toNat ≤ 57 then c.toNat + 4
  else if c = '+' then 62
  else if c = '/' then 63
  else 0

/-- Base64 decoding to a byte list, models `Buffer.from(s, "base64")`. -/
def b64Decode : List Char → List Nat
  | a :: b :: c :: d :: rest =>
    let n := ((b64Val a * 64 + b64Val b) * 64 + b64Val c) * 64 + b64Val d
    if c = '=' then [n / 65536]
    else if d = '=' then [n / 65536, n / 256 % 256]
    else (n / 65536) :: (n / 256 % 256) :: (n % 256) :: b64Decode rest
  | _ => []

/-- The bytes of the fixed 1x1 transparent GIF sent by the beacon endpoints. -/
def transparentGif : List Nat :=
  b64Decode "R0lGODlhAQABAIAAAAAAAP///yH5BAEAAAAALAAAAAABAAEAAAIBRAA7".toList

/-- The request headers the handlers read. -/
structure Headers where
  xForwardedFor : Option String := none
  xRealIp : Option String := none
  acceptLanguage : Option String := none
  userAgent : Option String := none
  referer : Option String := none
  authorization : Option String := none
deriving DecidableEq

/-- The candidate field set for one visit, as a loosely-typed JS object:
every property may be absent. -/
structure VisitData where
  visitor_id : Option JsVal := none
  timestamp : Option JsVal := none
  url : Option JsVal := none
  path : Option JsVal := none
  referrer : Option JsVal := none
  user_agent : Option JsVal := none
  screen_width : Option JsVal := none
  screen_height : Option JsVal := none
  ip_address : Option JsVal := none
  event_type : Option JsVal := none
  duration : Option JsVal := none
deriving DecidableEq

/-- An incoming HTTP request, as far as the handlers inspect it. -/
structure Req where
  headers : Headers := {}
  remoteAddress : Option String := none
  ip : String := ""
  query : List (String × String) := []
  body : VisitData := {}
deriving DecidableEq

/-- Reading a query-string parameter as a JS string property. -/
def qstr (q : List (String × String)) (k : String) : Option JsVal :=
  (q.lookup k).map JsVal.vstr

/-- The candidate field set obtained by using the raw query-string pairs as
the visit data object (`visitData = req.query`). -/
def queryToVisitData (q : List (String × String)) : VisitData :=
  { visitor_id := qstr q "visitor_id"
    timestamp := qstr q "timestamp"
    url := qstr q "url"
    path := qstr q "path"
    referrer := qstr q "referrer"
    user_agent := qstr q "user_agent"
    screen_width := qstr q "screen_width"
    screen_height := qstr q "screen_height"
    ip_address := qstr q "ip_address"
    event_type := qstr q "event_type"
    duration := qstr q "duration" }

/-- Client IP resolution, identical in every ingestion handler:
the first comma entry of X-Forwarded-For, else X-Real-IP, else the transport
peer address, else the framework fallback field. -/
def resolveIp (req : Req) : String :=
  jsOrS (req.headers.xForwardedFor.map firstCommaEntry)
    (jsOrS req.headers.xRealIp (jsOrS req.remoteAddress req.ip))

/-- The candidate data of the POST track endpoint: the parsed JSON body with
the ip_address property overwritten by the server-resolved client IP. -/
def trackVisitData (req : Req) : VisitData :=
  { req.body with ip_address := some (.vstr (resolveIp req)) }

/-- Outcome of a call to safeInsertVisit. -/
inductive InsertResult where
  | rejected
  | dbError
  | ok (id : Nat)
deriving DecidableEq

namespace Part000

/-- One stored row of the visits table of the part_000 variant: the eleven
client fields plus the four enrichment columns. -/
structure Visit where
  id : Nat
  visitor_id : JsVal
  timestamp : JsVal
  url : JsVal
  path : JsVal
  referrer : JsVal
  user_agent : JsVal
  screen_width : JsVal
  screen_height : JsVal
  ip_address : JsVal
  country : String
  city : String
  device_type : String
  language : String
  event_type : JsVal
  duration : JsVal
deriving DecidableEq

/-- The sqlite visits table of the part_000 variant: the AUTOINCREMENT
counter and the stored rows in insertion order. -/
structure DB where
  nextId : Nat
  rows : List Visit
deriving DecidableEq

end Part000

namespace Server

/-- One stored row of the visits table of the analytics-server.js variant:
only the eleven fields listed in its INSERT statement. -/
structure Visit where
  id : Nat
  visitor_id : JsVal
  timestamp : JsVal
  url : JsVal
  path : JsVal
  referrer : JsVal
  user_agent : JsVal
  screen_width : JsVal
  screen_height : JsVal
  ip_address : JsVal
  event_type : JsVal
  duration : JsVal
deriving DecidableEq

/-- The sqlite visits table of the analytics-server.js variant. -/
structure DB where
  nextId : Nat
  rows : List Visit
deriving DecidableEq

end Server

/-- The JSON responses of the modelled routes. -/
inductive Body where
  | errMissing
  | errSave
  | errDb
  | success (id : Nat)
  | rowsP (rs : List Part000.Visit)
  | rowsS (rs : List Server.Visit)
deriving DecidableEq

/-- An HTTP response with a JSON body. -/
structure Response where
  status : Nat
  body : Body
deriving DecidableEq

/-- The response written by safeInsertVisit when a response channel is
attached: 400 on validation failure, 500 on storage failure, 200 with the
assigned row id on success. -/
def insertResponse : InsertResult → Response
  | .rejected => ⟨400, .errMissing⟩
  | .dbError => ⟨500, .errSave⟩
  | .ok i => ⟨200, .success i⟩

/-- The response of a beacon (image) endpoint: the headers other than the
content type are absent on the catch paths. -/
structure PixelResponse where
  status : Nat
  contentType : String
  cacheControl : Option String
  pragma : Option String
  expires : Option String
  payload : List Nat
deriving DecidableEq

/-- The beacon response of the normal path: status 200, the fixed GIF
bytes, and the cache-busting headers. -/
def pixelResponse : PixelResponse :=
  { status := 200
    contentType := "image/gif"
    cacheControl := some "no-cache, no-store, must-revalidate"
    pragma := some "no-cache"
    expires := some "0"
    payload := transparentGif }

/-- The beacon response of a catch block: still 200 with the fixed GIF
bytes, but only the content type is set, no cache-busting headers. -/
def pixelCatchResponse : PixelResponse :=
  { status := 200
    contentType := "image/gif"
    cacheControl := none
    pragma := none
    expires := none
    payload := transparentGif }

/-- The outcome of the part_000 pixel route, which has no catch around its
ip_address assignment: either an image response, or an uncaught throw that
the framework default error handler answers (status 500, no image). -/
inductive PixelOutcome where
  | img (r : PixelResponse)
  | expressError (status : Nat)
deriving DecidableEq

/-- The geoip-lite collaborator: for an address, possibly a record with
possibly absent country and city. `none` also covers a lookup that throws,
which the code catches. -/
def GeoFn : Type := String → Option (Option String × Option String)

/-- The result of `JSON.parse(decodeURIComponent(d))` on the data
parameter: the decode or parse can throw, can succeed with the JSON null
value (on which the later ip_address property assignment throws a
TypeError), or can succeed with an assignable value, projected to the
candidate fields. -/
inductive JsonResult where
  | jthrow
  | jnull
  | jobj (v : VisitData)
deriving DecidableEq

/-- Insertion step of the sort used to model an ORDER BY clause. -/
def insertBy {α : Type} (le : α → α → Bool) (x : α) : List α → List α
  | [] => [x]
  | y :: ys => if le x y then x :: y :: ys else y :: insertBy le x ys

/-- Sorting used to model an ORDER BY clause of the analytics query. -/
def sortBy {α : Type} (le : α → α → Bool) : List α → List α
  | [] => []
  | x :: xs => insertBy le x (sortBy le xs)

/-- Lexicographic order on character lists, modelling comparison of TEXT
values by the store. -/
def charListLe : List Char → List Char → Bool
  | [], _ => true
  | _ :: _, [] => false
  | a :: as, b :: bs =>
    if a.toNat < b.toNat then true
    else if a.toNat = b.toNat then charListLe as bs
    else false

namespace Part000

/-- Device classifier of the part_000 variant: falsy input is Unknown, then
an ordered cascade of case-insensitive regex tests, first match wins. -/
def detectDeviceType (userAgent : Option JsVal) : String :=
  if jsTruthyO userAgent = false then "Unknown"
  else
    let ua := (userAgent.getD (.vstr "")).toStr
    if containsAnyCI ua
        ["Android", "webOS", "iPhone", "iPad", "iPod",
         "BlackBerry", "IEMobile", "Opera Mini"] then "Mobile"
    else if containsAnyCI ua ["Macintosh", "MacIntel"] then "Desktop"
    else if containsCI ua "Windows NT" then "Desktop"
    else if containsCI ua "Linux" then "Desktop"
    else if containsCI ua "Chromebook" then "Laptop"
    else "Unknown"

/-- The geo-enrichment block of safeInsertVisit: country and city start as
Unknown; the lookup runs only for a truthy string address that is neither
::1 nor prefixed by 127.0.0.1; a missing record, a missing field, a thrown
lookup and a non-string address (whose startsWith call would throw inside
the guarded block) all leave Unknown in place. -/
def geoResolve (geo : GeoFn) (ip : Option JsVal) : String × String :=
  match ip with
  | some (.vstr s) =>
    if s != "" && s != "::1" && !("127.0.0.1".toList.isPrefixOf s.toList) then
      match geo s with
      | some g => (jsOrS g.1 "Unknown", jsOrS g.2 "Unknown")
      | none => ("Unknown", "Unknown")
    else ("Unknown", "Unknown")
  | _ => ("Unknown", "Unknown")

/-- The language enrichment: first comma entry of the Accept-Language
header, Unknown when absent or empty. -/
def resolveLanguage (h : Headers) : String :=
  jsOrS (h.acceptLanguage.map firstCommaEntry) "Unknown"

/-- safeInsertVisit of the part_000 variant: reject when visitor_id or
timestamp is absent or falsy; otherwise enrich (device type, geo, language),
default every optional field, and hand the row to the store. The Bool
parameter is the storage collaborator outcome for this insert. -/
def safeInsertVisit (geo : GeoFn) (dbOk : Bool) (data : VisitData) (req : Req)
    (db : DB) : DB × InsertResult :=
  if !(jsTruthyO data.visitor_id) || !(jsTruthyO data.timestamp) then
    (db, .rejected)
  else
    let row : Visit :=
      { id := db.nextId
        visitor_id := (data.visitor_id).getD (.vstr "")
        timestamp := (data.timestamp).getD (.vstr "")
        url := jsOr data.url (.vstr "")
        path := jsOr data.path (.vstr "")
        referrer := jsOr data.referrer (.vstr "")
        user_agent := jsOr data.user_agent (.vstr "")
        screen_width := jsOr data.screen_width (.vnum 0)
        screen_height := jsOr data.screen_height (.vnum 0)
        ip_address := jsOr data.ip_address (.vstr "")
        country := (geoResolve geo data.ip_address).1
        city := (geoResolve geo data.ip_address).2
        device_type := detectDeviceType data.user_agent
        language := resolveLanguage req.headers
        event_type := jsOr data.event_type (.vstr "page_view")
        duration := jsOr data.duration (.vnum 0) }
    if dbOk then
      ({ nextId := db.nextId + 1, rows := db.rows ++ [row] }, .ok db.nextId)
    else
      (db, .dbError)

/-- POST /api/track of the part_000 variant: body fields with the resolved
client IP, inserted with the response channel attached. -/
def apiTrack (geo : GeoFn) (dbOk : Bool) (req : Req) (db : DB) : DB × Response :=
  let r := safeInsertVisit geo dbOk (trackVisitData req) req db
  (r.1, insertResponse r.2)

/-- The visitData variable of GET /api/track-pixel after the try/catch but
before IP resolution: a truthy data parameter is decoded and JSON-parsed
(the abstract jparse), a throw falls back to the raw query pairs, as does an
absent or empty parameter; a parse that succeeds with JSON null leaves null
in the variable, modelled by none. -/
def pixelParsedData (jparse : String → JsonResult) (req : Req) :
    Option VisitData :=
  match req.query.lookup "data" with
  | some d =>
    if d != "" then
      match jparse d with
      | .jobj v => some v
      | .jnull => none
      | .jthrow => some (queryToVisitData req.query)
    else some (queryToVisitData req.query)
  | none => some (queryToVisitData req.query)

/-- The candidate data of GET /api/track-pixel with the resolved client IP,
when the ip_address assignment does not throw (visitData not null). -/
def pixelVisitData (jparse : String → JsonResult) (req : Req) :
    Option VisitData :=
  (pixelParsedData jparse req).map
    (fun v => { v with ip_address := some (.vstr (resolveIp req)) })

/-- GET /api/track-pixel of the part_000 variant: on a null visitData the
ip_address assignment throws outside the try/catch, no insert happens and
the framework answers its default 500 error with no image; otherwise insert
without a response channel, then send the fixed GIF with cache-busting
headers. -/
def trackPixel (geo : GeoFn) (jparse : String → JsonResult) (dbOk : Bool)
    (req : Req) (db : DB) : DB × PixelOutcome :=
  match pixelVisitData jparse req with
  | none => (db, .expressError 500)
  | some v => ((safeInsertVisit geo dbOk v req db).1, .img pixelResponse)

/-- ORDER BY id DESC of the analytics query of the part_000 variant. -/
def orderByIdDesc (rows : List Visit) : List Visit :=
  sortBy (fun a b => decide (b.id ≤ a.id)) rows

/-- GET /api/analytics of the part_000 variant: up to 1000 rows by
descending id, 500 only on a storage error. No authorization is read. -/
def apiAnalytics (dbOk : Bool) (db : DB) : Response :=
  if dbOk then ⟨200, .rowsP ((orderByIdDesc db.rows).take 1000)⟩
  else ⟨500, .errDb⟩

end Part000

namespace Server

/-- safeInsertVisit of the analytics-server.js variant: the same validation
gate, then an insert of the eleven listed fields with defaults and no
enrichment. -/
def safeInsertVisit (dbOk : Bool) (data : VisitData) (db : DB) :
    DB × InsertResult :=
  if !(jsTruthyO data.visitor_id) || !(jsTruthyO data.timestamp) then
    (db, .rejected)
  else
    let row : Visit :=
      { id := db.nextId
        visitor_id := (data.visitor_id).getD (.vstr "")
        timestamp := (data.timestamp).getD (.vstr "")
        url := jsOr data.url (.vstr "")
        path := jsOr data.path (.vstr "")
        referrer := jsOr data.referrer (.vstr "")
        user_agent := jsOr data.user_agent (.vstr "")
        screen_width := jsOr data.screen_width (.vnum 0)
        screen_height := jsOr data.screen_height (.vnum 0)
        ip_address := jsOr data.ip_address (.vstr "")
        event_type := jsOr data.event_type (.vstr "page_view")
        duration := jsOr data.duration (.vnum 0) }
    if dbOk then
      ({ nextId := db.nextId + 1, rows := db.rows ++ [row] }, .ok db.nextId)
    else
      (db, .dbError)

/-- POST /api/track of the analytics-server.js variant. -/
def apiTrack (dbOk : Bool) (req : Req) (db : DB) : DB × Response :=
  let r := safeInsertVisit dbOk (trackVisitData req) db
  (r.1, insertResponse r.2)

/-- The visitData variable of GET /api/track-pixel of this variant after
its inner try/catch: the data parameter defaulted to the two-character
empty JSON object text, decoded and parsed (abstract jparse); a throw falls
back to the raw query pairs, while a parse succeeding with JSON null leaves
null in the variable, modelled by none. -/
def pixelParsedData (jparse : String → JsonResult) (req : Req) :
    Option VisitData :=
  match jparse (jsOrS (req.query.lookup "data") "\x7b\x7d") with
  | .jobj v => some v
  | .jnull => none
  | .jthrow => some (queryToVisitData req.query)

/-- The candidate data of GET /api/track-pixel with the resolved client IP,
when the ip_address assignment does not throw (visitData not null). -/
def pixelVisitData (jparse : String → JsonResult) (req : Req) :
    Option VisitData :=
  (pixelParsedData jparse req).map
    (fun v => { v with ip_address := some (.vstr (resolveIp req)) })

/-- GET /api/track-pixel of the analytics-server.js variant: on a null
visitData the ip_address assignment throws into the outer catch, which
sends the GIF with only the content type and no insert happens; otherwise
insert without a response channel and send the full fixed response. -/
def trackPixel (jparse : String → JsonResult) (dbOk : Bool) (req : Req)
    (db : DB) : DB × PixelResponse :=
  match pixelVisitData jparse req with
  | none => (db, pixelCatchResponse)
  | some v => ((safeInsertVisit dbOk v db).1, pixelResponse)

/-- JS parseInt followed by a falsy default of 0: absent input and a NaN
result (modelled by none) both give 0. -/
def parseIntOr0 (pint : String → Option Int) (o : Option String) : Int :=
  match o with
  | none => 0
  | some s => (pint s).getD 0

/-- The candidate data of GET /api/ios-track: assembled only from the vid,
url, w, h query parameters, the referer and user-agent headers, the
resolved client IP and the server clock; event_type is the fixed ios_visit
tag. The external decodeURIComponent is the abstract dec, whose none result
models a URIError that aborts the construction (caught by the handler), so
no record exists in that case. -/
def iosVisitData (dec : String → Option String) (pint : String → Option Int)
    (now : String) (req : Req) : Option VisitData :=
  (dec (jsOrS (req.query.lookup "url") "")).map (fun u =>
    { visitor_id := some (.vstr (jsOrS (req.query.lookup "vid") "ios-unknown"))
      timestamp := some (.vstr now)
      url := some (.vstr u)
      path := some (.vstr "")
      referrer := some (.vstr (jsOrS req.headers.referer ""))
      user_agent := some (.vstr (jsOrS req.headers.userAgent ""))
      screen_width := some (.vnum (parseIntOr0 pint (req.query.lookup "w")))
      screen_height := some (.vnum (parseIntOr0 pint (req.query.lookup "h")))
      ip_address := some (.vstr (resolveIp req))
      event_type := some (.vstr "ios_visit")
      duration := none })

/-- GET /api/ios-track: build the candidate data and insert it without a
response channel, then send the fixed GIF with cache-busting headers; a
URIError while decoding the url parameter lands in the catch, which skips
the insert and sends the GIF with only the content type. -/
def iosTrack (dec : String → Option String) (pint : String → Option Int)
    (now : String) (dbOk : Bool) (req : Req) (db : DB) : DB × PixelResponse :=
  match iosVisitData dec pint now req with
  | none => (db, pixelCatchResponse)
  | some v => ((safeInsertVisit dbOk v db).1, pixelResponse)

/-- The bearer-token gate of GET /api/analytics: true exactly when the
handler logs its unauthenticated-access warning. -/
def authWarned (auth : Option String) : Bool :=
  match auth with
  | none => true
  | some a => a != "Bearer your-secret-token"

/-- ORDER BY timestamp DESC of the analytics query of this variant. -/
def orderByTimestampDesc (rows : List Visit) : List Visit :=
  sortBy (fun a b => charListLe b.timestamp.toStr.toList a.timestamp.toStr.toList) rows

/-- GET /api/analytics of the analytics-server.js variant: the warning flag
of the gate, and the response, which ignores the gate entirely. -/
def apiAnalytics (auth : Option String) (dbOk : Bool) (db : DB) :
    Bool × Response :=
  (authWarned auth,
   if dbOk then ⟨200, .rowsS ((orderByTimestampDesc db.rows).take 1000)⟩
   else ⟨500, .errDb⟩)

end Server

/-- Modelled from the spec: the device classification policy as worded in
section 4.1, an ordered first-match-wins pattern over token families -
mobile-device tokens to Mobile, Macintosh, Windows NT and Linux desktop
tokens to Desktop, the Chromebook token to Laptop, anything else to Unknown.
The spec leaves the exact token alternatives implicit, so the token lists
are the literal alternatives of the source regexes. -/
def deviceTypeSpec (ua : String) : String :=
  if containsAnyCI ua
      ["Android", "webOS", "iPhone", "iPad", "iPod",
       "BlackBerry", "IEMobile", "Opera Mini"] then "Mobile"
  else if containsAnyCI ua ["Macintosh", "MacIntel", "Windows NT", "Linux"] then "Desktop"
  else if containsCI ua "Chromebook" then "Laptop"
  else "Unknown"

theorem mem_insertBy {α : Type} {le : α → α → Bool} {x y : α} :
    ∀ {l : List α}, y ∈ insertBy le x l → y = x ∨ y ∈ l := by
  intro l
  induction l with
  | nil => intro h; simp [insertBy] at h; exact Or.inl h
  | cons z zs ih =>
    intro h
    simp only [insertBy] at h
    split at h
    · rcases List.mem_cons.mp h with h | h
      exacts [Or.inl h, Or.inr h]
    · rcases List.mem_cons.mp h with h | h
      · exact Or.inr (List.mem_cons.mpr (Or.inl h))
      · rcases ih h with h' | h'
        exacts [Or.inl h', Or.inr (List.mem_cons.mpr (Or.inr h'))]

theorem pairwise_insertBy {α : Type} {le : α → α → Bool}
    (htrans : ∀ a b c, le a b = true → le b c = true → le a c = true)
    (htot : ∀ a b, le a b = true ∨ le b a = true) (x : α) :
    ∀ {l : List α}, l.Pairwise (fun a b => le a b = true) →
      (insertBy le x l).Pairwise (fun a b => le a b = true) := by
  intro l
  induction l with
  | nil => intro _; simp [insertBy]
  | cons z zs ih =>
    intro h
    rcases List.pairwise_cons.mp h with ⟨hz, hzs⟩
    simp only [insertBy]
    split
    case isTrue hle =>
      refine List.pairwise_cons.mpr ⟨?_, h⟩
      intro y hy
      rcases List.mem_cons.mp hy with rfl | hy
      · exact hle
      · exact htrans x z y hle (hz y hy)
    case isFalse hle =>
      refine List.pairwise_cons.mpr ⟨?_, ih hzs⟩
      intro y hy
      rcases mem_insertBy hy with heq | hy
      · rw [heq]
        rcases htot x z with h' | h'
        · exact absurd h' hle
        · exact h'
      · exact hz y hy

theorem pairwise_sortBy {α : Type} {le : α → α → Bool}
    (htrans : ∀ a b c, le a b = true → le b c = true → le a c = true)
    (htot : ∀ a b, le a b = true ∨ le b a = true) :
    ∀ (l : List α), (sortBy le l).Pairwise (fun a b => le a b = true) := by
  intro l
  induction l with
  | nil => simp [sortBy]
  | cons x xs ih => exact pairwise_insertBy htrans htot x ih

theorem mem_sortBy {α : Type} {le : α → α → Bool} {y : α} :
    ∀ {l : List α}, y ∈ sortBy le l → y ∈ l := by
  intro l
  induction l with
  | nil => intro h; simp [sortBy] at h
  | cons x xs ih =>
    intro h
    rcases mem_insertBy h with rfl | h
    · exact List.mem_cons.mpr (Or.inl rfl)
    · exact List.mem_cons.mpr (Or.inr (ih h))

/-- C2 counterexample: the GET /api/track-pixel request with data=null (the
parser succeeds with JSON null) makes the part_000 route throw at the
ip_address assignment outside its try/catch and answer the framework 500
with no image, and makes the analytics-server.js route land in its outer
catch, whose GIF carries no cache-busting headers; likewise an undecodable
url parameter sends the iOS route into its catch. So the response is not
always status 200 with the fixed GIF and cache-busting headers. -/
theorem pixel_null_data_breaks_fixed_response :
    (Part000.trackPixel (fun _ => none) (fun _ => .jnull) true
      { query := [("data", "null")] } ⟨1, []⟩).2 = .expressError 500 ∧
    (Part000.trackPixel (fun _ => none) (fun _ => .jnull) true
      { query := [("data", "null")] } ⟨1, []⟩).1 = ⟨1, []⟩ ∧
    (Server.trackPixel (fun _ => .jnull) true
      { query := [("data", "null")] } ⟨1, []⟩).2 = pixelCatchResponse ∧
    (Server.trackPixel (fun _ => .jnull) true
      { query := [("data", "null")] } ⟨1, []⟩).2.cacheControl = none ∧
    (Server.iosTrack (fun s => if s = "%E0" then none else some s)
      (fun _ => none) "2024-01-01T00:00:00.000Z" true
      { query := [("url", "%E0")] } ⟨1, []⟩).2 = pixelCatchResponse := by
  exact ⟨rfl, rfl, rfl, rfl, rfl⟩

/-- C2 amended: the ingestion outcome (validation rejection, storage insert
failure, or success) never changes the response of either GET endpoint, and
whenever the handler reaches its send (the parsed data is not JSON null,
and the iOS url parameter decodes) the response is exactly status 200 with
the fixed GIF bytes and the cache-busting headers; on the catch paths the
analytics-server.js routes still send the 200 GIF but with only the content
type, while the part_000 pixel route falls to the framework 500. -/
theorem pixel_endpoints_gif_response_amended (geo geo2 : GeoFn)
    (jparse : String → JsonResult) (dbOk dbOk2 : Bool) (req : Req)
    (db db2 : Part000.DB) (dbS dbS2 : Server.DB) (dec : String → Option String)
    (pint : String → Option Int) (now : String) :
    (Part000.pixelParsedData jparse req ≠ none →
      (Part000.trackPixel geo jparse dbOk req db).2 = .img pixelResponse) ∧
    (Part000.pixelParsedData jparse req = none →
      (Part000.trackPixel geo jparse dbOk req db).2 = .expressError 500 ∧
      (Part000.trackPixel geo jparse dbOk req db).1 = db) ∧
    (Part000.trackPixel geo jparse dbOk req db).2 =
      (Part000.trackPixel geo2 jparse dbOk2 req db2).2 ∧
    (Server.trackPixel jparse dbOk req dbS).2.status = 200 ∧
    (Server.trackPixel jparse dbOk req dbS).2.payload = transparentGif ∧
    (Server.pixelParsedData jparse req ≠ none →
      (Server.trackPixel jparse dbOk req dbS).2 = pixelResponse) ∧
    (Server.trackPixel jparse dbOk req dbS).2 =
      (Server.trackPixel jparse dbOk2 req dbS2).2 ∧
    (Server.iosTrack dec pint now dbOk req dbS).2.status = 200 ∧
    (Server.iosTrack dec pint now dbOk req dbS).2.payload = transparentGif ∧
    (dec (jsOrS (req.query.lookup "url") "") ≠ none →
      (Server.iosTrack dec pint now dbOk req dbS).2 = pixelResponse) ∧
    (Server.iosTrack dec pint now dbOk req dbS).2 =
      (Server.iosTrack dec pint now dbOk2 req dbS2).2 ∧
    pixelResponse.status = 200 ∧
    pixelResponse.payload = transparentGif ∧
    pixelResponse.contentType = "image/gif" ∧
    pixelResponse.cacheControl = some "no-cache, no-store, must-revalidate" ∧
    pixelResponse.pragma = some "no-cache" ∧
    pixelResponse.expires = some "0" ∧
    pixelCatchResponse.status = 200 ∧
    pixelCatchResponse.payload = transparentGif ∧
    pixelCatchResponse.cacheControl = none ∧
    transparentGif =
      [71, 73, 70, 56, 57, 97, 1, 0, 1, 0, 128, 0, 0, 0, 0, 0, 255, 255, 255,
       33, 249, 4, 1, 0, 0, 0, 0, 44, 0, 0, 0, 0, 1, 0, 1, 0, 0, 2, 1, 68, 0, 59] := by
  refine ⟨?_, ?_, ?_, ?_, ?_, ?_, ?_, ?_, ?_, ?_, ?_,
    rfl, rfl, rfl, rfl, rfl, rfl, rfl, rfl, rfl, by decide⟩
  · intro h
    cases hp : Part000.pixelParsedData jparse req with
    | none => exact absurd hp h
    | some v => simp [Part000.trackPixel, Part000.pixelVisitData, hp]
  · intro h
    simp [Part000.trackPixel, Part000.pixelVisitData, h]
  · cases hp : Part000.pixelParsedData jparse req <;>
      simp [Part000.trackPixel, Part000.pixelVisitData, hp]
  · cases hp : Server.pixelParsedData jparse req <;>
      simp [Server.trackPixel, Server.pixelVisitData, hp, pixelResponse,
        pixelCatchResponse]
  · cases hp : Server.pixelParsedData jparse req <;>
      simp [Server.trackPixel, Server.pixelVisitData, hp, pixelResponse,
        pixelCatchResponse]
  · intro h
    cases hp : Server.pixelParsedData jparse req with
    | none => exact absurd hp h
    | some v => simp [Server.trackPixel, Server.pixelVisitData, hp]
  · cases hp : Server.pixelParsedData jparse req <;>
      simp [Server.trackPixel, Server.pixelVisitData, hp]
  · cases hd : dec (jsOrS (req.query.lookup "url") "") <;>
      simp [Server.iosTrack, Server.iosVisitData, hd, pixelResponse,
        pixelCatchResponse]
  · cases hd : dec (jsOrS (req.query.lookup "url") "") <;>
      simp [Server.iosTrack, Server.iosVisitData, hd, pixelResponse,
        pixelCatchResponse]
  · intro h
    cases hd : dec (jsOrS (req.query.lookup "url") "") with
    | none => exact absurd hd h
    | some u => simp [Server.iosTrack, Server.iosVisitData, hd]
  · cases hd : dec (jsOrS (req.query.lookup "url") "") <;>
      simp [Server.iosTrack, Server.iosVisitData, hd]

/-- Concrete runs of the amended beacon contract: a parse throw on the
pixel route and a decodable url on the iOS route still produce the full
fixed response. -/
theorem pixel_endpoints_gif_response_amended_instance :
    (Part000.trackPixel (fun _ => none) (fun _ => .jthrow) true
      { query := [("data", "notjson")] } ⟨1, []⟩).2 = .img pixelResponse ∧
    (Server.trackPixel (fun _ => .jthrow) false
      { query := [("data", "notjson")] } ⟨1, []⟩).2 = pixelResponse ∧
    (Server.iosTrack (fun s => some s) (fun _ => none)
      "2024-01-01T00:00:00.000Z" true {} ⟨1, []⟩).2 = pixelResponse := by
  have h := pixel_endpoints_gif_response_amended (fun _ => none) (fun _ => none)
    (fun _ => .jthrow) true false { query := [("data", "notjson")] }
    ⟨1, []⟩ ⟨1, []⟩ ⟨1, []⟩ ⟨1, []⟩ (fun s => some s) (fun _ => none)
    "2024-01-01T00:00:00.000Z"
  have h2 := pixel_endpoints_gif_response_amended (fun _ => none) (fun _ => none)
    (fun _ => .jthrow) true false {} ⟨1, []⟩ ⟨1, []⟩ ⟨1, []⟩ ⟨1, []⟩
    (fun s => some s) (fun _ => none) "2024-01-01T00:00:00.000Z"
  refine ⟨h.1 (by decide), ?_, h2.2.2.2.2.2.2.2.2.2.1 (by decide)⟩
  have hs := h.2.2.2.2.2.1 (by decide)
  have hind := h.2.2.2.2.2.2.1
  exact hind.symm.trans hs

/-- C4: the device classifier is a total deterministic function of the
user-agent string into Mobile, Desktop, Laptop, Unknown; it agrees with the
ordered first-match-wins policy (mobile tokens to Mobile, then the desktop
tokens to Desktop, then Chromebook to Laptop, else Unknown), and absent or
empty input is Unknown. -/
theorem detectDeviceType_matches_ordered_spec :
    (∀ ua : String,
      Part000.detectDeviceType (some (.vstr ua)) = deviceTypeSpec ua) ∧
    Part000.detectDeviceType none = "Unknown" ∧
    Part000.detectDeviceType (some (.vstr "")) = "Unknown" ∧
    (∀ x, Part000.detectDeviceType x ∈
      (["Mobile", "Desktop", "Laptop", "Unknown"] : List String)) ∧
    Part000.detectDeviceType
      (some (.vstr "Mozilla/5.0 (iPhone; CPU iPhone OS 16_0 like Mac OS X)")) = "Mobile" ∧
    Part000.detectDeviceType
      (some (.vstr "Mozilla/5.0 (Macintosh; Intel Mac OS X 10_15_7)")) = "Desktop" ∧
    Part000.detectDeviceType
      (some (.vstr "Mozilla/5.0 (X11; Chromebook)")) = "Laptop" ∧
    Part000.detectDeviceType (some (.vstr "curl/8.0")) = "Unknown" := by
  refine ⟨?_, rfl, by decide, ?_, by decide, by decide, by decide, by decide⟩
  · intro ua
    by_cases h : ua = ""
    · subst h; decide
    · have hne : (ua != "") = true := by simp [bne_iff_ne, h]
      cases hM : containsCI ua "Macintosh" <;>
      cases hMI : containsCI ua "MacIntel" <;>
      cases hW : containsCI ua "Windows NT" <;>
      cases hL : containsCI ua "Linux" <;>
      cases hCB : containsCI ua "Chromebook" <;>
        simp [Part000.detectDeviceType, deviceTypeSpec, jsTruthyO, JsVal.truthy,
          hne, containsAnyCI, JsVal.toStr, hM, hMI, hW, hL, hCB]
  · intro x
    simp only [Part000.detectDeviceType]
    split_ifs <;> simp

/-- C1: for every POST /api/track payload in which visitor_id or timestamp
is absent or falsy the response is a 400 client error and no row is inserted
(the stored state is unchanged); for every payload with both fields truthy
the validation gate passes and an insert is attempted: healthy storage
appends one row and answers 200, failing storage answers 500. Both server
variants behave this way. -/
theorem track_post_validation_gate (geo : GeoFn) (dbOk : Bool) (req : Req)
    (db : Part000.DB) (db2 : Server.DB) :
    ((jsTruthyO req.body.visitor_id = false ∨ jsTruthyO req.body.timestamp = false) →
      (Part000.apiTrack geo dbOk req db).2.status = 400 ∧
      (Part000.apiTrack geo dbOk req db).1 = db ∧
      (Server.apiTrack dbOk req db2).2.status = 400 ∧
      (Server.apiTrack dbOk req db2).1 = db2) ∧
    (jsTruthyO req.body.visitor_id = true → jsTruthyO req.body.timestamp = true →
      (Part000.safeInsertVisit geo dbOk (trackVisitData req) req db).2 ≠ .rejected ∧
      (Server.safeInsertVisit dbOk (trackVisitData req) db2).2 ≠ .rejected ∧
      (dbOk = true →
        (Part000.apiTrack geo dbOk req db).2.status = 200 ∧
        (∃ r, (Part000.apiTrack geo dbOk req db).1.rows = db.rows ++ [r]) ∧
        (Server.apiTrack dbOk req db2).2.status = 200 ∧
        (∃ r, (Server.apiTrack dbOk req db2).1.rows = db2.rows ++ [r])) ∧
      (dbOk = false →
        (Part000.apiTrack geo dbOk req db).2.status = 500 ∧
        (Part000.apiTrack geo dbOk req db).1 = db ∧
        (Server.apiTrack dbOk req db2).2.status = 500 ∧
        (Server.apiTrack dbOk req db2).1 = db2)) := by
  constructor
  · intro h
    have hgate : (!(jsTruthyO (trackVisitData req).visitor_id) ||
        !(jsTruthyO (trackVisitData req).timestamp)) = true := by
      rcases h with h | h <;> simp [trackVisitData, h]
    simp [Part000.apiTrack, Server.apiTrack, Part000.safeInsertVisit,
      Server.safeInsertVisit, hgate, insertResponse]
  · intro h1 h2
    have hgate : (!(jsTruthyO (trackVisitData req).visitor_id) ||
        !(jsTruthyO (trackVisitData req).timestamp)) = false := by
      simp [trackVisitData, h1, h2]
    cases dbOk <;>
      simp [Part000.apiTrack, Server.apiTrack, Part000.safeInsertVisit,
        Server.safeInsertVisit, hgate, insertResponse]

/-- A concrete run of the validation gate: the empty payload is rejected
with 400, and a payload with both required fields present is answered 200. -/
theorem track_post_validation_gate_instance :
    (Part000.apiTrack (fun _ => none) true {} ⟨1, []⟩).2.status = 400 ∧
    (Part000.apiTrack (fun _ => none) true
      { body := { visitor_id := some (.vstr "v1"),
                  timestamp := some (.vstr "2024-01-01T00:00:00Z") } }
      ⟨1, []⟩).2.status = 200 := by
  have h1 := track_post_validation_gate (fun _ => none) true {} ⟨1, []⟩ ⟨1, []⟩
  have h2 := track_post_validation_gate (fun _ => none) true
    { body := { visitor_id := some (.vstr "v1"),
                timestamp := some (.vstr "2024-01-01T00:00:00Z") } }
    ⟨1, []⟩ ⟨1, []⟩
  exact ⟨(h1.1 (Or.inl rfl)).1, ((h2.2 rfl rfl).2.2.1 rfl).1⟩

/-- C3: with healthy storage GET /api/analytics returns 200 with at most
1000 stored rows ordered newest first (descending id), and the empty store
yields the empty array with 200, not an error. -/
theorem analytics_recent_bounded (db : Part000.DB) :
    (Part000.apiAnalytics true db).status = 200 ∧
    (Part000.apiAnalytics true db).body =
      .rowsP ((Part000.orderByIdDesc db.rows).take 1000) ∧
    ((Part000.orderByIdDesc db.rows).take 1000).length ≤ 1000 ∧
    ((Part000.orderByIdDesc db.rows).take 1000).Pairwise
      (fun a b => b.id ≤ a.id) ∧
    (∀ r ∈ (Part000.orderByIdDesc db.rows).take 1000, r ∈ db.rows) ∧
    (db.rows = [] → (Part000.apiAnalytics true db).body = .rowsP []) := by
  refine ⟨rfl, rfl, List.length_take_le _ _, ?_, ?_, ?_⟩
  · have hp := @pairwise_sortBy Part000.Visit
      (fun a b => decide (b.id ≤ a.id))
      (fun a b c hab hbc => by
        simp only [decide_eq_true_eq] at *
        exact Nat.le_trans hbc hab)
      (fun a b => by
        rcases Nat.le_total b.id a.id with h | h
        · exact Or.inl (by simpa using h)
        · exact Or.inr (by simpa using h))
      db.rows
    have hp' : (Part000.orderByIdDesc db.rows).Pairwise (fun a b => b.id ≤ a.id) :=
      hp.imp (fun h => by simpa using h)
    exact List.Pairwise.sublist (List.take_sublist _ _) hp'
  · intro r hr
    exact mem_sortBy (List.mem_of_mem_take hr)
  · intro h
    simp [Part000.apiAnalytics, Part000.orderByIdDesc, sortBy, h]

/-- A concrete run of the analytics query on the empty store. -/
theorem analytics_recent_bounded_instance :
    (Part000.apiAnalytics true ⟨1, []⟩).status = 200 ∧
    (Part000.apiAnalytics true ⟨1, []⟩).body = .rowsP [] := by
  have h := analytics_recent_bounded ⟨1, []⟩
  exact ⟨h.1, h.2.2.2.2.2 rfl⟩

/-- C5: geo enrichment always degrades to the Unknown pair instead of
propagating anything: absent address, empty address, the loopback forms the
code checks, a dataset miss (or throwing lookup, both modelled by none) all
yield (Unknown, Unknown); and whether an insert is attempted never depends
on the lookup function, so enrichment cannot block ingestion. -/
theorem geo_enrichment_defaults_unknown (geo geo2 : GeoFn) (s : String)
    (dbOk : Bool) (data : VisitData) (req : Req) (db : Part000.DB) :
    Part000.geoResolve geo none = ("Unknown", "Unknown") ∧
    Part000.geoResolve geo (some (.vstr "")) = ("Unknown", "Unknown") ∧
    Part000.geoResolve geo (some (.vstr "::1")) = ("Unknown", "Unknown") ∧
    ("127.0.0.1".toList.isPrefixOf s.toList = true →
      Part000.geoResolve geo (some (.vstr s)) = ("Unknown", "Unknown")) ∧
    (geo s = none →
      Part000.geoResolve geo (some (.vstr s)) = ("Unknown", "Unknown")) ∧
    ((Part000.safeInsertVisit geo dbOk data req db).2 = .rejected ↔
      (Part000.safeInsertVisit geo2 dbOk data req db).2 = .rejected) := by
  refine ⟨rfl, rfl, rfl, ?_, ?_, ?_⟩
  · intro hpref
    simp only [Part000.geoResolve, Bool.and_eq_true, Bool.not_eq_true', bne_iff_ne,
      ne_eq]
    rw [if_neg]
    rintro ⟨-, h3⟩
    rw [hpref] at h3
    exact Bool.noConfusion h3
  · intro hgeo
    simp [Part000.geoResolve, hgeo]
  · cases hg : (!(jsTruthyO data.visitor_id) || !(jsTruthyO data.timestamp)) <;>
      cases dbOk <;> simp [Part000.safeInsertVisit, hg]

/-- Concrete runs of the geo block: a loopback address and a dataset miss
both resolve to the Unknown pair. -/
theorem geo_enrichment_defaults_unknown_instance :
    Part000.geoResolve (fun _ => none) (some (.vstr "127.0.0.1")) =
      ("Unknown", "Unknown") ∧
    Part000.geoResolve (fun _ => none) (some (.vstr "8.8.8.8")) =
      ("Unknown", "Unknown") := by
  have h1 := geo_enrichment_defaults_unknown (fun _ => none) (fun _ => none)
    "127.0.0.1" true {} {} ⟨1, []⟩
  have h2 := geo_enrichment_defaults_unknown (fun _ => none) (fun _ => none)
    "8.8.8.8" true {} {} ⟨1, []⟩
  exact ⟨h1.2.2.2.1 (by decide), h2.2.2.2.2.1 rfl⟩

theorem jsOrS_ne_of_default_ne {o : Option String} {d : String} (hd : d ≠ "") :
    jsOrS o d ≠ "" := by
  cases o with
  | none => simpa [jsOrS] using hd
  | some s =>
    simp only [jsOrS]
    split
    case isTrue h => simpa using h
    case isFalse h => exact hd

/-- C6: in every ingestion handler the stored ip_address is resolved as the
first truthy value among the first comma entry of X-Forwarded-For, then
X-Real-IP, then the transport peer address, in that priority order (with
the framework fallback field last); a value supplied in the client body is
never used: overwriting the body ip_address changes nothing, and every
candidate record carries exactly the resolved address. -/
theorem ip_resolution_priority (geo : GeoFn)
    (jparse : String → JsonResult) (dec : String → Option String)
    (pint : String → Option Int) (now : String) (dbOk : Bool) (req : Req)
    (db : Part000.DB) (v : Option JsVal) (s r m : String) :
    (req.headers.xForwardedFor = some s → firstCommaEntry s ≠ "" →
      resolveIp req = firstCommaEntry s) ∧
    ((req.headers.xForwardedFor = none ∨
        (req.headers.xForwardedFor = some s ∧ firstCommaEntry s = "")) →
      req.headers.xRealIp = some r → r ≠ "" → resolveIp req = r) ∧
    ((req.headers.xForwardedFor = none ∨
        (req.headers.xForwardedFor = some s ∧ firstCommaEntry s = "")) →
      (req.headers.xRealIp = none ∨ req.headers.xRealIp = some "") →
      req.remoteAddress = some m → m ≠ "" → resolveIp req = m) ∧
    ((req.headers.xForwardedFor = none ∨
        (req.headers.xForwardedFor = some s ∧ firstCommaEntry s = "")) →
      (req.headers.xRealIp = none ∨ req.headers.xRealIp = some "") →
      (req.remoteAddress = none ∨ req.remoteAddress = some "") →
      resolveIp req = req.ip) ∧
    Part000.apiTrack geo dbOk
        { req with body := { req.body with ip_address := v } } db =
      Part000.apiTrack geo dbOk req db ∧
    (trackVisitData req).ip_address = some (.vstr (resolveIp req)) ∧
    (∀ w, Part000.pixelVisitData jparse req = some w →
      w.ip_address = some (.vstr (resolveIp req))) ∧
    (∀ w, Server.pixelVisitData jparse req = some w →
      w.ip_address = some (.vstr (resolveIp req))) ∧
    (∀ w, Server.iosVisitData dec pint now req = some w →
      w.ip_address = some (.vstr (resolveIp req))) := by
  refine ⟨?_, ?_, ?_, ?_, ?_, rfl, ?_, ?_, ?_⟩
  · intro hxf hfs
    simp [resolveIp, hxf, jsOrS, bne_iff_ne, hfs]
  · rintro (h | ⟨h, he⟩) hxr hr
    · simp [resolveIp, jsOrS, h, hxr, bne_iff_ne, hr]
    · simp [resolveIp, jsOrS, h, he, hxr, bne_iff_ne, hr]
  · rintro (h | ⟨h, he⟩) (h2 | h2) hrm hm
    · simp [resolveIp, jsOrS, h, h2, hrm, bne_iff_ne, hm]
    · simp [resolveIp, jsOrS, h, h2, hrm, bne_iff_ne, hm]
    · simp [resolveIp, jsOrS, h, he, h2, hrm, bne_iff_ne, hm]
    · simp [resolveIp, jsOrS, h, he, h2, hrm, bne_iff_ne, hm]
  · rintro (h | ⟨h, he⟩) (h2 | h2) (h3 | h3)
    · simp [resolveIp, jsOrS, h, h2, h3]
    · simp [resolveIp, jsOrS, h, h2, h3]
    · simp [resolveIp, jsOrS, h, h2, h3]
    · simp [resolveIp, jsOrS, h, h2, h3]
    · simp [resolveIp, jsOrS, h, he, h2, h3]
    · simp [resolveIp, jsOrS, h, he, h2, h3]
    · simp [resolveIp, jsOrS, h, he, h2, h3]
    · simp [resolveIp, jsOrS, h, he, h2, h3]
  · rfl
  · intro w hw
    simp only [Part000.pixelVisitData, Option.map_eq_some'] at hw
    obtain ⟨u, -, rfl⟩ := hw
    rfl
  · intro w hw
    simp only [Server.pixelVisitData, Option.map_eq_some'] at hw
    obtain ⟨u, -, rfl⟩ := hw
    rfl
  · intro w hw
    simp only [Server.iosVisitData, Option.map_eq_some'] at hw
    obtain ⟨u, -, rfl⟩ := hw
    rfl

/-- A concrete run of IP resolution: the first X-Forwarded-For entry wins,
and without it X-Real-IP is used. -/
theorem ip_resolution_priority_instance :
    resolveIp { headers := { xForwardedFor := some "1.2.3.4, 9.9.9.9" } } =
      "1.2.3.4" ∧
    resolveIp { headers := { xRealIp := some "7.7.7.7" },
                remoteAddress := some "8.8.8.8" } = "7.7.7.7" := by
  have h1 := ip_resolution_priority (fun _ => none) (fun _ => .jthrow)
    (fun s => some s) (fun _ => none) "" true
    { headers := { xForwardedFor := some "1.2.3.4, 9.9.9.9" } } ⟨1, []⟩ none
    "1.2.3.4, 9.9.9.9" "" ""
  have h2 := ip_resolution_priority (fun _ => none) (fun _ => .jthrow)
    (fun s => some s) (fun _ => none) "" true
    { headers := { xRealIp := some "7.7.7.7" },
      remoteAddress := some "8.8.8.8" } ⟨1, []⟩ none "" "7.7.7.7" ""
  exact ⟨h1.1 rfl (by decide), h2.2.1 (Or.inl rfl) rfl (by decide)⟩

/-- C7: a GET /api/track-pixel request whose truthy data parameter fails to
decode or parse as JSON falls back to the raw query pairs as the candidate
field set, still hands exactly those fields (with the resolved IP) to the
insert helper, and still answers with the fixed GIF; the failure is never
surfaced. Both variants. -/
theorem pixel_parse_failure_fallback (geo : GeoFn)
    (jparse : String → JsonResult) (dbOk : Bool) (req : Req)
    (db : Part000.DB) (db2 : Server.DB) (d : String)
    (hq : req.query.lookup "data" = some d) (hne : d ≠ "")
    (hp : jparse d = .jthrow) :
    Part000.pixelVisitData jparse req =
      some { queryToVisitData req.query with
             ip_address := some (.vstr (resolveIp req)) } ∧
    (Part000.trackPixel geo jparse dbOk req db).1 =
      (Part000.safeInsertVisit geo dbOk
        { queryToVisitData req.query with
          ip_address := some (.vstr (resolveIp req)) } req db).1 ∧
    (Part000.trackPixel geo jparse dbOk req db).2 = .img pixelResponse ∧
    Server.pixelVisitData jparse req =
      some { queryToVisitData req.query with
             ip_address := some (.vstr (resolveIp req)) } ∧
    (Server.trackPixel jparse dbOk req db2).1 =
      (Server.safeInsertVisit dbOk
        { queryToVisitData req.query with
          ip_address := some (.vstr (resolveIp req)) } db2).1 ∧
    (Server.trackPixel jparse dbOk req db2).2 = pixelResponse := by
  have h1 : Part000.pixelParsedData jparse req =
      some (queryToVisitData req.query) := by
    simp [Part000.pixelParsedData, hq, bne_iff_ne, hne, hp]
  have h2 : Server.pixelParsedData jparse req =
      some (queryToVisitData req.query) := by
    simp [Server.pixelParsedData, jsOrS, hq, bne_iff_ne, hne, hp]
  refine ⟨?_, ?_, ?_, ?_, ?_, ?_⟩ <;>
    simp [Part000.pixelVisitData, Server.pixelVisitData, Part000.trackPixel,
      Server.trackPixel, h1, h2]

/-- A concrete run of the pixel fallback: an unparsable data parameter
still gets the fixed GIF, and the raw query fields are used. -/
theorem pixel_parse_failure_fallback_instance :
    (Part000.trackPixel (fun _ => none) (fun _ => .jthrow) true
      { query := [("data", "notjson")] } ⟨1, []⟩).2 = .img pixelResponse ∧
    Part000.pixelVisitData (fun _ => .jthrow)
      { query := [("data", "notjson")] } =
      some { queryToVisitData [("data", "notjson")] with
             ip_address := some (.vstr "") } := by
  have h := pixel_parse_failure_fallback (fun _ => none) (fun _ => .jthrow) true
    { query := [("data", "notjson")] } ⟨1, []⟩ ⟨1, []⟩ "notjson"
    (by decide) (by decide) rfl
  exact ⟨h.2.2.1, h.1⟩

/-- C8: the iOS candidate record is assembled only from the vid, url, w, h
query parameters, the request headers and the transport address: two
requests agreeing on those (with any bodies) yield the same record;
event_type is always the fixed ios_visit tag, the timestamp is always the
server clock, and prepending any other query parameter, including one named
timestamp, changes nothing. -/
theorem ios_fields_assembly (dec : String → Option String)
    (pint : String → Option Int)
    (now : String) (req r1 r2 : Req) (k v : String)
    (hk : k ∉ (["vid", "url", "w", "h"] : List String))
    (hvid : r1.query.lookup "vid" = r2.query.lookup "vid")
    (hurl : r1.query.lookup "url" = r2.query.lookup "url")
    (hw : r1.query.lookup "w" = r2.query.lookup "w")
    (hh : r1.query.lookup "h" = r2.query.lookup "h")
    (hhead : r1.headers = r2.headers)
    (hrem : r1.remoteAddress = r2.remoteAddress) (hip : r1.ip = r2.ip) :
    (∀ w0, Server.iosVisitData dec pint now req = some w0 →
      w0.event_type = some (.vstr "ios_visit") ∧
      w0.timestamp = some (.vstr now)) ∧
    Server.iosVisitData dec pint now r1 = Server.iosVisitData dec pint now r2 ∧
    Server.iosVisitData dec pint now { req with query := (k, v) :: req.query } =
      Server.iosVisitData dec pint now req := by
  refine ⟨?_, ?_, ?_⟩
  · intro w0 hw0
    simp only [Server.iosVisitData, Option.map_eq_some'] at hw0
    obtain ⟨u, -, rfl⟩ := hw0
    exact ⟨rfl, rfl⟩
  · simp [Server.iosVisitData, resolveIp, hvid, hurl, hw, hh, hhead, hrem, hip]
  · simp only [List.mem_cons, List.not_mem_nil, or_false, not_or] at hk
    obtain ⟨h1, h2, h3, h4⟩ := hk
    simp [Server.iosVisitData, resolveIp, List.lookup,
      beq_eq_false_iff_ne.mpr (Ne.symm h1), beq_eq_false_iff_ne.mpr (Ne.symm h2),
      beq_eq_false_iff_ne.mpr (Ne.symm h3), beq_eq_false_iff_ne.mpr (Ne.symm h4)]

/-- Concrete runs of the iOS record assembly: a body field and a timestamp
query parameter change nothing. -/
theorem ios_fields_assembly_instance :
    Server.iosVisitData (fun s => some s) (fun _ => none)
      "2024-01-01T00:00:00.000Z"
      { body := { visitor_id := some (.vstr "spoof") } } =
    Server.iosVisitData (fun s => some s) (fun _ => none)
      "2024-01-01T00:00:00.000Z" {} ∧
    Server.iosVisitData (fun s => some s) (fun _ => none)
      "2024-01-01T00:00:00.000Z" { query := [("timestamp", "1999")] } =
    Server.iosVisitData (fun s => some s) (fun _ => none)
      "2024-01-01T00:00:00.000Z" {} := by
  have h := ios_fields_assembly (fun s => some s) (fun _ => none)
    "2024-01-01T00:00:00.000Z"
    {} { body := { visitor_id := some (.vstr "spoof") } } {} "timestamp" "1999"
    (by decide) rfl rfl rfl rfl rfl rfl rfl
  exact ⟨h.2.1, h.2.2⟩

/-- C9: the GET /api/analytics response does not depend on the
Authorization header: any two header values give identical responses over
the same stored state, the handler never answers 401, a healthy store
always yields 200 with the row list; the bearer-token gate only raises the
warning flag, set for a missing or wrong token and cleared by the expected
token. -/
theorem analytics_auth_independent (a1 a2 : Option String) (dbOk : Bool)
    (db : Server.DB) :
    (Server.apiAnalytics a1 dbOk db).2 = (Server.apiAnalytics a2 dbOk db).2 ∧
    (Server.apiAnalytics a1 dbOk db).2.status ≠ 401 ∧
    (dbOk = true →
      (Server.apiAnalytics a1 dbOk db).2 =
        ⟨200, .rowsS ((Server.orderByTimestampDesc db.rows).take 1000)⟩) ∧
    (Server.apiAnalytics none dbOk db).1 = true ∧
    (Server.apiAnalytics (some "Bearer your-secret-token") dbOk db).1 =
      false := by
  refine ⟨rfl, ?_, ?_, rfl, by simp [Server.apiAnalytics, Server.authWarned]⟩
  · cases dbOk <;> simp [Server.apiAnalytics]
  · intro h
    subst h
    rfl

/-- A concrete run of the analytics route: no Authorization header still
gets the 200 row list. -/
theorem analytics_auth_independent_instance :
    (Server.apiAnalytics none true ⟨1, []⟩).2 = ⟨200, .rowsS []⟩ := by
  have h := analytics_auth_independent none (some "wrong") true ⟨1, []⟩
  exact h.2.2.1 rfl

/-- C10 counterexample: with healthy storage and an undecodable url
parameter the iOS handler throws into its catch before safeInsertVisit, so
no insert is attempted and the store is unchanged, refuting that an insert
is always attempted on every GET /api/ios-track request. -/
theorem ios_insert_skipped_on_url_decode_throw :
    (Server.iosTrack (fun s => if s = "%E0" then none else some s)
      (fun _ => none) "2024-01-01T00:00:00.000Z" true
      { query := [("url", "%E0")] } ⟨1, []⟩).1 = ⟨1, []⟩ ∧
    Server.iosVisitData (fun s => if s = "%E0" then none else some s)
      (fun _ => none) "2024-01-01T00:00:00.000Z"
      { query := [("url", "%E0")] } = none := by
  exact ⟨rfl, rfl⟩

/-- C10 amended: on the iOS path the missing-required-fields rejection is
unreachable: whenever the url parameter decodes (in particular on every
request with no query parameters at all) the candidate record exists, its
visitor_id defaults to the non-empty ios-unknown tag, its timestamp is the
non-empty server clock, so validation passes and an insert is attempted: a
healthy store gains exactly one row; a failing store reports a storage
error, never a rejection. When the decode throws, the catch skips the
insert, so safeInsertVisit is not reached, and still no validation
rejection is produced. -/
theorem ios_validation_unreachable_amended (dec : String → Option String)
    (pint : String → Option Int) (now u : String) (dbOk : Bool) (req : Req)
    (db : Server.DB) (hnow : now ≠ "")
    (hdec : dec (jsOrS (req.query.lookup "url") "") = some u) :
    (∃ w, Server.iosVisitData dec pint now req = some w ∧
      jsTruthyO w.visitor_id = true ∧
      jsTruthyO w.timestamp = true ∧
      (Server.safeInsertVisit dbOk w db).2 ≠ .rejected) ∧
    (dbOk = true →
      (Server.iosTrack dec pint now dbOk req db).1.rows.length =
        db.rows.length + 1) ∧
    (dbOk = false →
      (Server.iosTrack dec pint now dbOk req db).1 = db) := by
  have hrec : Server.iosVisitData dec pint now req =
      some { visitor_id :=
               some (.vstr (jsOrS (req.query.lookup "vid") "ios-unknown"))
             timestamp := some (.vstr now)
             url := some (.vstr u)
             path := some (.vstr "")
             referrer := some (.vstr (jsOrS req.headers.referer ""))
             user_agent := some (.vstr (jsOrS req.headers.userAgent ""))
             screen_width :=
               some (.vnum (Server.parseIntOr0 pint (req.query.lookup "w")))
             screen_height :=
               some (.vnum (Server.parseIntOr0 pint (req.query.lookup "h")))
             ip_address := some (.vstr (resolveIp req))
             event_type := some (.vstr "ios_visit")
             duration := none } := by
    simp [Server.iosVisitData, hdec]
  have hv : (jsOrS (req.query.lookup "vid") "ios-unknown") ≠ "" :=
    jsOrS_ne_of_default_ne (by decide)
  have hgate : ∀ w, Server.iosVisitData dec pint now req = some w →
      (!(jsTruthyO w.visitor_id) || !(jsTruthyO w.timestamp)) = false := by
    intro w hw
    rw [hrec] at hw
    obtain rfl := Option.some_injective _ hw.symm
    simp [jsTruthyO, JsVal.truthy, bne_iff_ne, hv, hnow]
  refine ⟨?_, ?_, ?_⟩
  · refine ⟨_, hrec, ?_, ?_, ?_⟩
    · simp [jsTruthyO, JsVal.truthy, bne_iff_ne, hv]
    · simp [jsTruthyO, JsVal.truthy, bne_iff_ne, hnow]
    · cases dbOk <;> simp [Server.safeInsertVisit, hgate _ hrec]
  · intro h
    subst h
    simp [Server.iosTrack, hrec, Server.safeInsertVisit, hgate _ hrec]
  · intro h
    subst h
    simp [Server.iosTrack, hrec, Server.safeInsertVisit, hgate _ hrec]

/-- A concrete run of the iOS path with no query parameters at all: the
insert still happens and one row is stored. -/
theorem ios_validation_unreachable_amended_instance :
    (Server.iosTrack (fun s => some s) (fun _ => none)
      "2024-01-01T00:00:00.000Z" true {} ⟨1, []⟩).1.rows.length = 1 := by
  have h := ios_validation_unreachable_amended (fun s => some s) (fun _ => none)
    "2024-01-01T00:00:00.000Z" "" true {} ⟨1, []⟩ (by decide) rfl
  exact h.2.1 rfl
